import Mathlib

/- Shallow embedding of the connectivity core of the homeassistant-fibaro-intercom
   repository: `custom_components/fibaro_intercom/coordinator.py` (the Home Assistant
   coordinator) and `custom_components/fibaro_intercom/client.py` (the standalone
   client).  Network sends, sleeps and task spawns are modelled as an emitted effect
   trace; asynchronous call outcomes that depend on the network are oracle
   parameters.  Wall-clock time is a rational-number parameter `now`. -/

/-! ## JSON-RPC frame model

The fields the message handlers inspect.  An absent key is `none`; a nested
`error.data` that is not a dict, or lacks a `name` key, is modelled as
`dataName = none` (the Python code coalesces both to `""`). -/

structure RpcError where
  code : Option Int
  message : Option String
  dataName : Option String
deriving DecidableEq

structure RpcResult where
  token : Option String
  exp_time : Option Rat
deriving DecidableEq

structure RpcParams where
  relay : Option Nat
  is_open : Option Bool
  button : Option Nat
  state : Option Bool
deriving DecidableEq

/-- An inbound JSON-RPC frame; `result = some r` models `data["result"]` being a
dict (its `token` key optional), mirroring the coordinator's
`isinstance(data["result"], dict)` check. -/
structure Frame where
  id : Option Nat
  method : Option String
  result : Option RpcResult
  error : Option RpcError
  params : RpcParams
deriving DecidableEq

def emptyParams : RpcParams :=
  { relay := none, is_open := none, button := none, state := none }

/-! ## Constants from `const.py` -/

def METHOD_LOGIN : String := "com.fibaro.intercom.account.login"

def METHOD_REFRESH_TOKEN : String := "com.fibaro.intercom.account.refreshToken"

def METHOD_RELAY_OPEN : String := "com.fibaro.intercom.relay.open"

def METHOD_RELAY_STATE_CHANGED : String := "com.fibaro.intercom.relay.stateChanged"

def METHOD_BUTTON_STATE_CHANGED : String := "com.fibaro.intercom.device.buttonStateChanged"

/-! ## Coordinator state (`FibaroIntercomCoordinator.__init__`) -/

/-- Status of an asyncio task reference held by the coordinator. -/
inductive TaskState where
  | running
  | done
deriving DecidableEq

/-- An outbound JSON-RPC request as built by `async_open_relay`: the `params`
dict carries `token`, `relay` and, optionally, `timeout`. -/
structure Request where
  id : Nat
  method : String
  tokenParam : Option String
  relayParam : Nat
  timeoutParam : Option Nat
deriving DecidableEq

/-- Observable actions the coordinator performs: publishing a data snapshot
(`async_set_updated_data`), internal calls (`async_disconnect`, `async_connect`),
sleeps, firing the doorbell event, (re)starting background tasks, websocket sends. -/
inductive Effect where
  | setUpdatedData (connected : Bool) (relays : List (Nat × Bool))
  | disconnectCall
  | sleep (secs : Rat)
  | connectCall
  | fireDoorbell (button : Nat)
  | startHealthCheck
  | startReconnectTask
  | send (req : Request)
deriving DecidableEq

/-- Mutable coordinator state (fields of `FibaroIntercomCoordinator`).  The
listener and health-check task handles only ever feed log lines, so only the
reconnect-task handle is kept. -/
structure CoordState where
  connected : Bool
  token : Option String
  tokenExpiresAt : Option Rat
  relayStates : List (Nat × Bool)
  messageId : Nat
  lastAuthTime : Rat
  stopEvent : Bool
  reconnectTask : Option TaskState
  websocketOpen : Bool
deriving DecidableEq

/-- Python dict assignment `self.relay_states[relay] = state`: replace the
binding if the key exists, else append it. -/
def setRelay : List (Nat × Bool) → Nat → Bool → List (Nat × Bool)
  | [], r, v => [(r, v)]
  | (k, w) :: rest, r, v =>
      if k = r then (r, v) :: rest else (k, w) :: setRelay rest r v

/-- Cancelling (and awaiting) a task reference: a running task becomes done. -/
def cancelTask : Option TaskState → Option TaskState
  | some TaskState.running => some TaskState.done
  | t => t

/-- Guard shared by all three reconnect-trigger sites:
`if not self._reconnect_task or self._reconnect_task.done():`. -/
def shouldStartReconnect (t : Option TaskState) : Bool :=
  match t with
  | some TaskState.running => false
  | _ => true

/-- State and effect of `async_disconnect` (coordinator.py lines 502-541): set the
stop event, cancel the background tasks, close the websocket, clear `connected`,
`token` and `token_expires_at`, and publish a disconnected snapshot that keeps
`relay_states`. -/
def async_disconnect (st : CoordState) : CoordState × List Effect :=
  let st1 : CoordState :=
    { st with
      stopEvent := true
      reconnectTask := cancelTask st.reconnectTask
      websocketOpen := false
      connected := false
      token := none
      tokenExpiresAt := none }
  (st1, [Effect.setUpdatedData false st1.relayStates])

/-- State and effect of `_handle_disconnection` (coordinator.py lines 265-289):
mark disconnected, publish the snapshot (keeping `relay_states`), and, unless the
stop event is set or a reconnection task is already running, start one. -/
def handle_disconnection (st : CoordState) : CoordState × List Effect :=
  let st1 : CoordState := { st with connected := false }
  let base := [Effect.setUpdatedData false st1.relayStates]
  if st1.stopEvent then (st1, base)
  else if shouldStartReconnect st1.reconnectTask then
    ({ st1 with reconnectTask := some TaskState.running },
      base ++ [Effect.startReconnectTask])
  else (st1, base)

/-- Failure path of `async_connect` (coordinator.py lines 147-157): on a connect
exception, start the reconnection task unless one is already running, then
re-raise. -/
def async_connect_failure (st : CoordState) : CoordState × List Effect :=
  if shouldStartReconnect st.reconnectTask then
    ({ st with reconnectTask := some TaskState.running }, [Effect.startReconnectTask])
  else (st, [])

/-- Handler `_async_handle_relay_state_changed` (coordinator.py lines 411-425). -/
def handle_relay_state_changed (st : CoordState) (p : RpcParams) :
    CoordState × List Effect :=
  let relay := p.relay.getD 0
  let v := p.is_open.getD false
  let st1 : CoordState := { st with relayStates := setRelay st.relayStates relay v }
  (st1, [Effect.setUpdatedData st1.connected st1.relayStates])

/-- Handler `_async_handle_button_state_changed` (coordinator.py lines 427-442). -/
def handle_button_state_changed (st : CoordState) (p : RpcParams) :
    CoordState × List Effect :=
  if p.state.getD false then (st, [Effect.fireDoorbell (p.button.getD 0)])
  else (st, [])

/-- Method / error dispatch of `_async_handle_message` (coordinator.py lines
368-409), reached when the frame carries no token-bearing result.  The branches
that only log (authentication errors, other errors, unknown methods) leave the
state unchanged and emit nothing. -/
def handle_message_rest (st : CoordState) (f : Frame) : CoordState × List Effect :=
  if f.method = some METHOD_RELAY_STATE_CHANGED then
    handle_relay_state_changed st f.params
  else if f.method = some METHOD_BUTTON_STATE_CHANGED then
    handle_button_state_changed st f.params
  else
    match f.error with
    | some e =>
        if e.message = some "Expired" ∨ e.dataName = some "InvalidToken" then
          let st1 : CoordState := { st with connected := false }
          let d := async_disconnect st1
          (d.1, Effect.disconnectCall :: d.2 ++ [Effect.sleep 2, Effect.connectCall])
        else (st, [])
    | none => (st, [])

/-- Handler `_async_handle_message` (coordinator.py lines 291-409).  A frame whose
`result` dict carries a `token` updates the token, its expiry (`now +
exp_time/1000` when `exp_time` is supplied in milliseconds, else `now + 900`),
the authentication timestamp, flips `connected` on (publishing the snapshot) and
restarts the health check; any other frame goes to `handle_message_rest`. -/
def async_handle_message (now : Rat) (st : CoordState) (f : Frame) :
    CoordState × List Effect :=
  match f.result with
  | some r =>
    match r.token with
    | some tok =>
      let expiry : Rat :=
        match r.exp_time with
        | some ms => now + ms / 1000
        | none => now + 900
      let st1 : CoordState :=
        { st with token := some tok, tokenExpiresAt := some expiry, lastAuthTime := now }
      if st1.connected then (st1, [Effect.startHealthCheck])
      else
        ({ st1 with connected := true },
          [Effect.setUpdatedData true st1.relayStates, Effect.startHealthCheck])
    | none => handle_message_rest st f
  | none => handle_message_rest st f

/-! ## Reconnection with exponential backoff -/

/-- Backoff cap of `_async_reconnect_loop` (coordinator.py line 447). -/
def max_backoff : Nat := 600

/-- One backoff update, `backoff = min(backoff * 2, max_backoff)`
(coordinator.py line 493). -/
def nextBackoff (b : Nat) : Nat := min (b * 2) max_backoff

/-- Waits performed by the body of `_async_reconnect_loop` (coordinator.py lines
444-500) given the current backoff and the success/failure outcome of each
successive connection attempt: a successful attempt returns from the loop, a
failed attempt waits the current backoff and doubles it (capped). -/
def reconnect_waits : Nat → List Bool → List Nat
  | _, [] => []
  | b, ok :: rest => if ok then [] else b :: reconnect_waits (nextBackoff b) rest

/-- One run of `_async_reconnect_loop`: the local `backoff` starts at 1
(coordinator.py line 446), so every fresh run restarts the backoff. -/
def reconnect_loop_waits (outcomes : List Bool) : List Nat :=
  reconnect_waits 1 outcomes

/-- Backoff value before the `(n+1)`-st attempt of one coordinator run. -/
def backoffAt : Nat → Nat
  | 0 => 1
  | n + 1 => nextBackoff (backoffAt n)

/-- Waits of the standalone client's `_reconnect` loop (client.py lines 249-276):
at most `fuel` remaining attempts, attempt counter `k` attempts already made;
each iteration sleeps `min(reconnect_interval * 2 ** (attempts - 1), 300)` and
then tries to connect. -/
def client_reconnect_go (interval : Nat) : Nat → Nat → List Bool → List Nat
  | 0, _, _ => []
  | fuel + 1, k, outcomes =>
    let delay := min (interval * 2 ^ k) 300
    match outcomes with
    | [] => delay :: client_reconnect_go interval fuel (k + 1) []
    | ok :: rest =>
        if ok then [delay]
        else delay :: client_reconnect_go interval fuel (k + 1) rest

/-- Full run of `FibaroIntercomClient._reconnect` with the constructor's
`reconnect_interval` and `max_reconnect_attempts`; unstated outcomes are
failures. -/
def client_reconnect_waits (interval maxAttempts : Nat) (outcomes : List Bool) :
    List Nat :=
  client_reconnect_go interval maxAttempts 0 outcomes

/-! ## Request-ID allocation -/

/-- Counter update shared by `FibaroIntercomCoordinator._get_next_id`
(coordinator.py lines 78-81) and `FibaroIntercomClient._send_request`
(client.py lines 181-182): increment, then use the new value.  Returns
(new counter, allocated id). -/
def get_next_id (n : Nat) : Nat × Nat := (n + 1, n + 1)

/-- Counter value after `k` allocations starting from `start`. -/
def counter_after (start : Nat) : Nat → Nat
  | 0 => start
  | k + 1 => (get_next_id (counter_after start k)).1

/-- The id handed out by the `(k+1)`-st allocation. -/
def allocated_id (start k : Nat) : Nat := (get_next_id (counter_after start k)).2

/-! ## Open relay (coordinator) -/

/-- Error surfaced by `async_open_relay`. -/
inductive CoordErr where
  | connectionError (msg : String)
  | sendError
deriving DecidableEq

/-- Send phase of `async_open_relay` (coordinator.py lines 566-610): build
`params = {token, relay[, timeout]}` from the current state, allocate a fresh id,
send `relay.open` once; on a send failure, mark disconnected, publish the
snapshot, trigger the reconnection supervisor (unless already running) and
re-raise. -/
def sendRelay (st : CoordState) (relay : Nat) (timeout : Option Nat)
    (sendOk : Bool) : CoordState × List Effect × Option CoordErr :=
  let rid := st.messageId + 1
  let st1 : CoordState := { st with messageId := rid }
  let req : Request :=
    { id := rid, method := METHOD_RELAY_OPEN, tokenParam := st.token,
      relayParam := relay, timeoutParam := timeout }
  if sendOk then (st1, ([Effect.send req], none))
  else if st1.connected then
    if shouldStartReconnect st1.reconnectTask then
      ({ st1 with connected := false, reconnectTask := some TaskState.running },
        ([Effect.send req, Effect.setUpdatedData false st1.relayStates,
          Effect.startReconnectTask], some CoordErr.sendError))
    else
      ({ st1 with connected := false },
        ([Effect.send req, Effect.setUpdatedData false st1.relayStates],
          some CoordErr.sendError))
  else (st1, ([Effect.send req], some CoordErr.sendError))

/-- Coordinator `async_open_relay` (coordinator.py lines 543-610).  When not
connected (or without a token) it first attempts an immediate reconnect, whose
network-dependent outcome is the oracle `reconnectResult` (`some st2` is the
state after a successful connect + login); if that fails it starts the
background reconnection task (unless running) and raises a connection error. -/
def async_open_relay (st : CoordState) (relay : Nat) (timeout : Option Nat)
    (reconnectResult : Option CoordState) (sendOk : Bool) :
    CoordState × List Effect × Option CoordErr :=
  if st.connected = false ∨ st.token = none then
    match reconnectResult with
    | some st2 => sendRelay st2 relay timeout sendOk
    | none =>
        if shouldStartReconnect st.reconnectTask then
          ({ st with reconnectTask := some TaskState.running },
            ([Effect.startReconnectTask],
              some (CoordErr.connectionError "Not connected to intercom")))
        else
          (st, ([], some (CoordErr.connectionError "Not connected to intercom")))
  else sendRelay st relay timeout sendOk

/-- Requests actually sent in an effect trace. -/
def sentRequests (effs : List Effect) : List Request :=
  effs.filterMap (fun e =>
    match e with
    | Effect.send r => some r
    | _ => none)

/-! ## SSL contexts (coordinator) -/

inductive VerifyMode where
  | certNone
  | certOptional
  | certRequired
deriving DecidableEq

structure SSLContext where
  check_hostname : Bool
  verify_mode : VerifyMode
deriving DecidableEq

/-- The `ssl.create_default_context()` of `_create_ssl_context`
(coordinator.py lines 92-94): hostname checking on, certificates required. -/
def create_ssl_context : SSLContext :=
  { check_hostname := true, verify_mode := VerifyMode.certRequired }

/-- Connection parameters handed to the coordinator. -/
structure ConnParams where
  host : String
  port : Nat
  username : String
  password : String

/-- SSL context used by `async_test_connection` (coordinator.py lines 96-107):
the default context with `check_hostname = False` and `verify_mode = CERT_NONE`,
for every configuration. -/
def test_connection_ssl_context (p : ConnParams) : SSLContext :=
  let c := create_ssl_context
  { c with check_hostname := false, verify_mode := VerifyMode.certNone }

/-- SSL context used by `_async_connect_websocket` (coordinator.py lines
159-170): identical unconditional weakening of the default context. -/
def connect_websocket_ssl_context (p : ConnParams) : SSLContext :=
  let c := create_ssl_context
  { c with check_hostname := false, verify_mode := VerifyMode.certNone }

/-! ## Standalone client (`client.py`) -/

/-- Exception taxonomy of client.py: `FibaroIntercomConnectionError` and
`FibaroIntercomAuthError` (both subclasses of `FibaroIntercomError`). -/
inductive ClientErr where
  | connectionErr (msg : String)
  | authErr (msg : String)
deriving DecidableEq

/-- The `str(ex)` of a client exception: its message. -/
def clientErrMessage : ClientErr → String
  | ClientErr.connectionErr m => m
  | ClientErr.authErr m => m

def raisesAuthError : Except ClientErr Unit → Bool
  | Except.error (ClientErr.authErr _) => true
  | _ => false

def raisesConnectionError : Except ClientErr Unit → Bool
  | Except.error (ClientErr.connectionErr _) => true
  | _ => false

/-- Mutable client state (fields of `FibaroIntercomClient`); `pending` is the
key set of `_pending_requests`. -/
structure ClientState where
  token : Option String
  connected : Bool
  requestId : Nat
  pending : Finset Nat
deriving DecidableEq

/-- `FibaroIntercomClient._authenticate` (client.py lines 153-172) applied to the
login response frame: an error frame raises `FibaroIntercomAuthError`; otherwise
the token is stored, and a missing or falsy (empty) token also raises
`FibaroIntercomAuthError`. -/
def client_authenticate (st : ClientState) (resp : Frame) :
    ClientState × Except ClientErr Unit :=
  match resp.error with
  | some e =>
      (st, Except.error (ClientErr.authErr
        ("Authentication failed: " ++ e.message.getD "Unknown error")))
  | none =>
    let t := resp.result.bind (fun r => r.token)
    let st1 : ClientState := { st with token := t }
    match t with
    | none =>
        (st1, Except.error (ClientErr.authErr
          "No token received in authentication response"))
    | some tok =>
        if tok = "" then
          (st1, Except.error (ClientErr.authErr
            "No token received in authentication response"))
        else (st1, Except.ok ())

/-- `FibaroIntercomClient.connect` (client.py lines 75-92) with the websocket
open succeeding and the login response given by `resp`: on success set
`_connected`; any exception, including the `FibaroIntercomAuthError` from
`_authenticate`, is caught and re-raised as
`FibaroIntercomConnectionError(f"Connection failed: {ex}")`. -/
def client_connect (st : ClientState) (resp : Frame) :
    ClientState × Except ClientErr Unit :=
  match client_authenticate st resp with
  | (st1, Except.ok _) => ({ st1 with connected := true }, Except.ok ())
  | (st1, Except.error e) =>
      (st1, Except.error (ClientErr.connectionErr
        ("Connection failed: " ++ clientErrMessage e)))

/-- Correlation step of `FibaroIntercomClient._handle_message` (client.py lines
230-236): a frame whose `id` matches a pending request pops the entry and then
fulfils the future with the frame (returned as the resolved id); any other frame
leaves the table untouched (notification dispatch only calls callbacks). -/
def client_handle_message (pending : Finset Nat) (f : Frame) :
    Finset Nat × Option Nat :=
  match f.id with
  | some i => if i ∈ pending then (pending.erase i, some i) else (pending, none)
  | none => (pending, none)

/-- Timeout path of `_send_request` (client.py lines 199-201): pop the pending
entry, then raise a connection error. -/
def send_request_timeout (pending : Finset Nat) (rid : Nat) :
    Finset Nat × ClientErr :=
  (pending.erase rid, ClientErr.connectionErr "Request timeout")

/-- Send-failure path of `_send_request` (client.py lines 202-204): pop the
pending entry, then raise a connection error wrapping the cause. -/
def send_request_failure (pending : Finset Nat) (rid : Nat) (msg : String) :
    Finset Nat × ClientErr :=
  (pending.erase rid, ClientErr.connectionErr ("Request failed: " ++ msg))

/-! ## Sample states and frames used by witnesses -/

/-- A connected, authenticated coordinator state. -/
def sampleConnectedState : CoordState :=
  { connected := true, token := some "abc123", tokenExpiresAt := some 1000,
    relayStates := [(0, false), (1, true)], messageId := 7, lastAuthTime := 0,
    stopEvent := false, reconnectTask := none, websocketOpen := true }

/-- A freshly constructed standalone client. -/
def clientInitState : ClientState :=
  { token := none, connected := false, requestId := 0, pending := ∅ }

/-- The login error frame of the spec scenario. -/
def invalidCredentialsFrame : Frame :=
  { id := some 1, method := none,
    result := none,
    error := some { code := some (-32602), message := some "Invalid credentials",
                    dataName := none },
    params := emptyParams }

/-- An inbound error frame with message exactly "Expired". -/
def expiredFrame : Frame :=
  { id := none, method := none, result := none,
    error := some { code := none, message := some "Expired", dataName := none },
    params := emptyParams }

/-- A correlated response frame for pending id 1. -/
def responseFrame : Frame :=
  { id := some 1, method := none, result := some { token := none, exp_time := none },
    error := none, params := emptyParams }

/-! ## Backoff lemmas -/

/-- Closed form of the coordinator's backoff recurrence. -/
lemma backoffAt_closed (n : Nat) : backoffAt n = min (2 ^ n) 600 := by
  induction n with
  | zero => decide
  | succ n ih =>
    have hp : (2 : Nat) ^ (n + 1) = 2 ^ n * 2 := pow_succ 2 n
    simp only [backoffAt, nextBackoff, max_backoff, ih, hp]
    generalize (2 : Nat) ^ n = a
    omega

lemma reconnect_waits_getD (outcomes : List Bool) :
    ∀ k i, i < (reconnect_waits (backoffAt k) outcomes).length →
      (reconnect_waits (backoffAt k) outcomes).getD i 0 = backoffAt (k + i) := by
  induction outcomes with
  | nil =>
    intro k i h
    simp [reconnect_waits] at h
  | cons ok rest ih =>
    intro k i h
    cases ok with
    | true => simp [reconnect_waits] at h
    | false =>
      have hstep : nextBackoff (backoffAt k) = backoffAt (k + 1) := rfl
      simp only [reconnect_waits, Bool.false_eq_true, if_false, hstep] at h ⊢
      cases i with
      | zero => simp
      | succ i =>
        have hlen : i < (reconnect_waits (backoffAt (k + 1)) rest).length := by
          simpa using Nat.lt_of_succ_lt_succ h
        have hrec := ih (k + 1) i hlen
        have harith : k + 1 + i = k + (i + 1) := by omega
        rw [harith] at hrec
        simpa using hrec

lemma client_reconnect_go_getD (interval : Nat) :
    ∀ fuel k outcomes i,
      i < (client_reconnect_go interval fuel k outcomes).length →
      (client_reconnect_go interval fuel k outcomes).getD i 0 =
        min (interval * 2 ^ (k + i)) 300 := by
  intro fuel
  induction fuel with
  | zero =>
    intro k outcomes i h
    simp [client_reconnect_go] at h
  | succ fuel ih =>
    intro k outcomes i h
    cases outcomes with
    | nil =>
      simp only [client_reconnect_go] at h ⊢
      cases i with
      | zero => simp
      | succ i =>
        have hlen : i < (client_reconnect_go interval fuel (k + 1) []).length := by
          simpa using Nat.lt_of_succ_lt_succ h
        have hrec := ih (k + 1) [] i hlen
        have harith : k + 1 + i = k + (i + 1) := by omega
        rw [harith] at hrec
        simpa using hrec
    | cons ok rest =>
      cases ok with
      | true =>
        simp only [client_reconnect_go, if_true] at h ⊢
        cases i with
        | zero => simp
        | succ i => simp at h
      | false =>
        simp only [client_reconnect_go, Bool.false_eq_true, if_false] at h ⊢
        cases i with
        | zero => simp
        | succ i =>
          have hlen : i < (client_reconnect_go interval fuel (k + 1) rest).length := by
            simpa using Nat.lt_of_succ_lt_succ h
          have hrec := ih (k + 1) rest i hlen
          have harith : k + 1 + i = k + (i + 1) := by omega
          rw [harith] at hrec
          simpa using hrec

/-! ## Claim theorems -/

/-- C2 (counterexample).  The claim asserts that every run of the reconnection
loop waits `1, 2, 4, ...` seconds capped at 600; but the standalone client's
reconnect loop (`FibaroIntercomClient._reconnect`, cited by the claim) at its
default parameters (`reconnect_interval = 5`, `max_reconnect_attempts = 10`)
waits 5 seconds before its first retry, not `min (2 ^ 0) 600 = 1`. -/
theorem backoff_claim_counterexample :
    (client_reconnect_waits 5 10 (List.replicate 10 false)).getD 0 0 ≠
      min (2 ^ 0) 600 := by decide

/-- C2 (amended).  The coordinator's reconnection loop
(`_async_reconnect_loop`) waits exactly `min (2 ^ i) 600` seconds after its
`(i+1)`-st failure — the sequence 1, 2, 4, ... doubling and capped at 600,
never skipping or shrinking, and restarting at 1 on every fresh run (so a
successful reconnect resets the backoff); the standalone client's `_reconnect`
loop instead waits `min (reconnect_interval * 2 ^ i) 300` before its
`(i+1)`-st attempt. -/
theorem backoff_sequences :
    (∀ outcomes : List Bool, ∀ i : Nat,
        i < (reconnect_loop_waits outcomes).length →
        (reconnect_loop_waits outcomes).getD i 0 = min (2 ^ i) 600) ∧
    (∀ interval maxAttempts : Nat, ∀ outcomes : List Bool, ∀ i : Nat,
        i < (client_reconnect_waits interval maxAttempts outcomes).length →
        (client_reconnect_waits interval maxAttempts outcomes).getD i 0 =
          min (interval * 2 ^ i) 300) := by
  constructor
  · intro outcomes i h
    have hb : backoffAt 0 = 1 := rfl
    have hh : i < (reconnect_waits (backoffAt 0) outcomes).length := by
      simpa [reconnect_loop_waits, hb] using h
    have := reconnect_waits_getD outcomes 0 i hh
    simpa [reconnect_loop_waits, hb, backoffAt_closed] using this
  · intro interval maxAttempts outcomes i h
    have := client_reconnect_go_getD interval maxAttempts 0 outcomes i h
    simpa [client_reconnect_waits] using this

/-- C2 (witness): the 11th coordinator wait is the 600-second cap, and the 4th
client wait at default parameters is 40 seconds. -/
theorem backoff_sequences_witness :
    (reconnect_loop_waits (List.replicate 11 false)).getD 10 0 = min (2 ^ 10) 600 ∧
    (client_reconnect_waits 5 10 (List.replicate 10 false)).getD 3 0 =
      min (5 * 2 ^ 3) 300 :=
  ⟨backoff_sequences.1 (List.replicate 11 false) 10 (by decide),
   backoff_sequences.2 5 10 (List.replicate 10 false) 3 (by decide)⟩

/-- C7: every allocation of a JSON-RPC request id (the shared increment-then-use
counter of `_get_next_id` and `_send_request`) returns a value strictly greater
than all previously allocated ids, so no id is ever reused within a session. -/
theorem request_ids_strictly_increasing (start i j : Nat) (h : i < j) :
    allocated_id start i < allocated_id start j := by
  have hc : ∀ k, counter_after start k = start + k := by
    intro k
    induction k with
    | zero => rfl
    | succ k ih =>
      simp only [counter_after, get_next_id, ih]
      omega
  simp only [allocated_id, get_next_id, hc]
  omega

/-- C7 (witness): the first allocated id is smaller than the second. -/
theorem request_ids_witness : allocated_id 0 0 < allocated_id 0 1 :=
  request_ids_strictly_increasing 0 0 1 (by decide)

/-- C9 (counterexample): the claim says every transition out of the connected
state clears the token and its expiry, but a detected disconnection
(`_handle_disconnection`) on a connected state with a live token leaves both in
place. -/
theorem disconnect_clears_token_counterexample :
    (handle_disconnection sampleConnectedState).1.token = some "abc123" ∧
    (handle_disconnection sampleConnectedState).1.tokenExpiresAt = some 1000 ∧
    (handle_disconnection sampleConnectedState).1.connected = false := by decide

/-- C9 (amended): an explicit disconnect (`async_disconnect`) sets `connected`
to false, clears the token and its expiry, and publishes a `connected = false`
snapshot keeping `relay_states` unchanged; a detected disconnection
(`_handle_disconnection`) sets `connected` to false and publishes the same
snapshot with `relay_states` unchanged, but leaves the token and its expiry
untouched. -/
theorem disconnect_transitions (st : CoordState) :
    (async_disconnect st).1.connected = false ∧
    (async_disconnect st).1.token = none ∧
    (async_disconnect st).1.tokenExpiresAt = none ∧
    (async_disconnect st).1.relayStates = st.relayStates ∧
    (async_disconnect st).2 = [Effect.setUpdatedData false st.relayStates] ∧
    (handle_disconnection st).1.connected = false ∧
    (handle_disconnection st).1.relayStates = st.relayStates ∧
    (handle_disconnection st).1.token = st.token ∧
    (handle_disconnection st).1.tokenExpiresAt = st.tokenExpiresAt ∧
    Effect.setUpdatedData false st.relayStates ∈ (handle_disconnection st).2 := by
  refine ⟨rfl, rfl, rfl, rfl, rfl, ?_, ?_, ?_, ?_, ?_⟩ <;>
    simp only [handle_disconnection] <;> split_ifs <;> simp

/-- C10: both websocket-opening paths of the coordinator — the connection test
and the main connect path — use an SSL context with hostname checking disabled
and certificate verification set to CERT_NONE, for every configuration. -/
theorem ssl_context_always_insecure (p : ConnParams) :
    (test_connection_ssl_context p).check_hostname = false ∧
    (test_connection_ssl_context p).verify_mode = VerifyMode.certNone ∧
    (connect_websocket_ssl_context p).check_hostname = false ∧
    (connect_websocket_ssl_context p).verify_mode = VerifyMode.certNone :=
  ⟨rfl, rfl, rfl, rfl⟩

/-- A connected coordinator state whose reconnection task is still running. -/
def runningTaskState : CoordState :=
  { connected := true, token := some "abc123", tokenExpiresAt := some 1000,
    relayStates := [(0, false), (1, true)], messageId := 7, lastAuthTime := 0,
    stopEvent := false, reconnectTask := some TaskState.running, websocketOpen := true }

/-- A login result frame carrying a token with `exp_time = 900000` ms. -/
def loginResultFrame : Frame :=
  { id := some 1, method := none,
    result := some { token := some "tok", exp_time := some 900000 },
    error := none, params := emptyParams }

/-- C1: an inbound error frame whose message is exactly "Expired" or whose
nested error-data name is "InvalidToken", arriving while connected, makes
`_async_handle_message` set `connected` to false, perform the full
`async_disconnect`, pause 2 seconds, and attempt `async_connect` again — a
forced disconnect-then-reconnect cycle. -/
theorem expired_error_forces_reconnect_cycle (now : Rat) (st : CoordState)
    (f : Frame) (e : RpcError) (hc : st.connected = true)
    (hres : f.result = none) (hmeth : f.method = none) (herr : f.error = some e)
    (hcond : e.message = some "Expired" ∨ e.dataName = some "InvalidToken") :
    async_handle_message now st f =
      ((async_disconnect { st with connected := false }).1,
        Effect.disconnectCall ::
          (async_disconnect { st with connected := false }).2
          ++ [Effect.sleep 2, Effect.connectCall]) ∧
    (async_handle_message now st f).1.connected = false := by
  refine ⟨?_, ?_⟩ <;>
    simp [async_handle_message, handle_message_rest, async_disconnect,
      hres, hmeth, herr, hcond]

/-- C1 (witness): the cycle at a concrete connected state and the literal
"Expired" error frame. -/
theorem expired_error_witness :
    async_handle_message 0 sampleConnectedState expiredFrame =
      ((async_disconnect { sampleConnectedState with connected := false }).1,
        Effect.disconnectCall ::
          (async_disconnect { sampleConnectedState with connected := false }).2
          ++ [Effect.sleep 2, Effect.connectCall]) ∧
    (async_handle_message 0 sampleConnectedState expiredFrame).1.connected = false :=
  expired_error_forces_reconnect_cycle 0 sampleConnectedState expiredFrame
    { code := none, message := some "Expired", dataName := none }
    rfl rfl rfl rfl (Or.inl rfl)

/-- C5: whenever an inbound frame's result carries a token,
`_async_handle_message` stores it and sets the expiry to `now + exp_time/1000`
seconds when the result supplies `exp_time` (milliseconds), and to `now + 900`
when it is absent; in particular `exp_time = 900000` yields `now + 900`. -/
theorem token_expiry_update (now : Rat) (st : CoordState) (f : Frame)
    (r : RpcResult) (tok : String) (hres : f.result = some r)
    (htok : r.token = some tok) :
    (async_handle_message now st f).1.token = some tok ∧
    (∀ ms : Rat, r.exp_time = some ms →
      (async_handle_message now st f).1.tokenExpiresAt = some (now + ms / 1000)) ∧
    (r.exp_time = none →
      (async_handle_message now st f).1.tokenExpiresAt = some (now + 900)) ∧
    (r.exp_time = some 900000 →
      (async_handle_message now st f).1.tokenExpiresAt = some (now + 900)) := by
  refine ⟨?_, ?_, ?_, ?_⟩
  · by_cases hcn : st.connected <;> simp [async_handle_message, hres, htok, hcn]
  · intro ms hms
    by_cases hcn : st.connected <;>
      simp [async_handle_message, hres, htok, hms, hcn]
  · intro hms
    by_cases hcn : st.connected <;>
      simp [async_handle_message, hres, htok, hms, hcn]
  · intro hms
    by_cases hcn : st.connected <;>
      simp [async_handle_message, hres, htok, hms, hcn] <;> norm_num

/-- C5 (witness): a login result with `exp_time = 900000` at `now = 5` stores
the token and sets the expiry to `5 + 900`. -/
theorem token_expiry_witness :
    (async_handle_message 5 sampleConnectedState loginResultFrame).1.token =
      some "tok" ∧
    (async_handle_message 5 sampleConnectedState loginResultFrame).1.tokenExpiresAt =
      some (5 + 900) :=
  ⟨(token_expiry_update 5 sampleConnectedState loginResultFrame
      { token := some "tok", exp_time := some 900000 } "tok" rfl rfl).1,
   (token_expiry_update 5 sampleConnectedState loginResultFrame
      { token := some "tok", exp_time := some 900000 } "tok" rfl rfl).2.2.2 rfl⟩

/-- C3: each reconnect-trigger site starts a new reconnection task exactly when
no task exists or the existing one has finished, and a trigger arriving while
one is running is a no-op: the running task is kept and no start is emitted —
at most one reconnection task is in flight. -/
theorem single_reconnect_task (st : CoordState) :
    (shouldStartReconnect st.reconnectTask = true ↔
      st.reconnectTask = none ∨ st.reconnectTask = some TaskState.done) ∧
    (Effect.startReconnectTask ∈ (handle_disconnection st).2 ↔
      st.stopEvent = false ∧ shouldStartReconnect st.reconnectTask = true) ∧
    (st.reconnectTask = some TaskState.running →
      (handle_disconnection st).1.reconnectTask = some TaskState.running ∧
      Effect.startReconnectTask ∉ (handle_disconnection st).2 ∧
      async_connect_failure st = (st, []) ∧
      (∀ relay timeout sendOk,
        Effect.startReconnectTask ∉
          (async_open_relay st relay timeout none sendOk).2.1)) := by
  obtain ⟨c, tok, exp, rs, mid, lat, stop, task, ws⟩ := st
  refine ⟨?_, ?_, ?_⟩
  · rcases task with _ | t
    · simp [shouldStartReconnect]
    · cases t <;> simp [shouldStartReconnect]
  · rcases task with _ | t
    · cases stop <;> simp [handle_disconnection, shouldStartReconnect]
    · cases t <;> cases stop <;> simp [handle_disconnection, shouldStartReconnect]
  · intro h
    simp only [] at h
    subst h
    refine ⟨?_, ?_, ?_, ?_⟩
    · cases stop <;> simp [handle_disconnection, shouldStartReconnect]
    · cases stop <;> simp [handle_disconnection, shouldStartReconnect]
    · simp [async_connect_failure, shouldStartReconnect]
    · intro relay timeout sendOk
      cases c <;> rcases tok with _ | s <;> cases sendOk <;>
        simp [async_open_relay, sendRelay, shouldStartReconnect]

/-- C3 (witness): a disconnection trigger while the reconnection task is
running keeps that task and starts nothing. -/
theorem single_reconnect_task_witness :
    (handle_disconnection runningTaskState).1.reconnectTask =
      some TaskState.running ∧
    Effect.startReconnectTask ∉ (handle_disconnection runningTaskState).2 :=
  ⟨((single_reconnect_task runningTaskState).2.2 rfl).1,
   ((single_reconnect_task runningTaskState).2.2 rfl).2.1⟩

/-- C4 (counterexample): on the login response
`{"error":{"code":-32602,"message":"Invalid credentials"}}` the client's
`connect()` does raise, but the surfaced exception is
`FibaroIntercomConnectionError`, not the claimed distinct `AuthError` (matching
the repository's own test, which expects `FibaroIntercomConnectionError` for
this scenario). -/
theorem login_error_auth_error_counterexample :
    raisesAuthError (client_connect clientInitState invalidCredentialsFrame).2 =
      false ∧
    raisesConnectionError
      (client_connect clientInitState invalidCredentialsFrame).2 = true ∧
    (client_connect clientInitState invalidCredentialsFrame).1.connected =
      false := by decide

/-- C4 (amended): if the device answers the login request with an error frame,
`_authenticate` raises `FibaroIntercomAuthError`, but `connect()` catches every
exception and surfaces `FibaroIntercomConnectionError` wrapping the
authentication failure message to the initiating caller; `connected` remains
unchanged (false). -/
theorem login_error_wrapped_connection_error (st : ClientState) (f : Frame)
    (e : RpcError) (herr : f.error = some e) :
    (client_authenticate st f).2 =
      Except.error (ClientErr.authErr
        ("Authentication failed: " ++ e.message.getD "Unknown error")) ∧
    (client_connect st f).2 =
      Except.error (ClientErr.connectionErr
        ("Connection failed: " ++
          ("Authentication failed: " ++ e.message.getD "Unknown error"))) ∧
    (client_connect st f).1 = st ∧
    (client_connect st f).1.connected = st.connected := by
  refine ⟨?_, ?_, ?_, ?_⟩ <;>
    simp [client_connect, client_authenticate, clientErrMessage, herr]

/-- C4 (witness): the wrapped connection error on the concrete
invalid-credentials frame. -/
theorem login_error_wrapped_witness :
    (client_authenticate clientInitState invalidCredentialsFrame).2 =
      Except.error (ClientErr.authErr
        ("Authentication failed: " ++ "Invalid credentials")) ∧
    (client_connect clientInitState invalidCredentialsFrame).2 =
      Except.error (ClientErr.connectionErr
        ("Connection failed: " ++
          ("Authentication failed: " ++ "Invalid credentials"))) :=
  ⟨(login_error_wrapped_connection_error clientInitState invalidCredentialsFrame
      { code := some (-32602), message := some "Invalid credentials",
        dataName := none } rfl).1,
   (login_error_wrapped_connection_error clientInitState invalidCredentialsFrame
      { code := some (-32602), message := some "Invalid credentials",
        dataName := none } rfl).2.1⟩

/-- C6: a matching inbound response removes the pending entry from the
correlation table and resolves it; the entry is gone the instant it is resolved,
so a second frame with the same id finds no pending entry, and the timeout and
send-failure paths likewise remove the entry before surfacing a connection
error — each pending request is fulfilled exactly once. -/
theorem pending_request_resolved_once (pending : Finset Nat) (i : Nat)
    (f : Frame) (hid : f.id = some i) (hmem : i ∈ pending) :
    client_handle_message pending f = (pending.erase i, some i) ∧
    i ∉ (client_handle_message pending f).1 ∧
    (client_handle_message (client_handle_message pending f).1 f).2 = none ∧
    (send_request_timeout pending i).1 = pending.erase i ∧
    i ∉ (send_request_timeout pending i).1 ∧
    (send_request_timeout pending i).2 =
      ClientErr.connectionErr "Request timeout" ∧
    (∀ msg, i ∉ (send_request_failure pending i msg).1) := by
  refine ⟨?_, ?_, ?_, rfl, ?_, rfl, ?_⟩ <;>
    simp [client_handle_message, send_request_timeout, send_request_failure,
      hid, hmem]

/-- C6 (witness): resolving pending id 1 out of the table containing ids 1 and 2. -/
theorem pending_request_witness :
    client_handle_message ({1, 2} : Finset Nat) responseFrame =
      (({1, 2} : Finset Nat).erase 1, some 1) ∧
    1 ∉ (client_handle_message ({1, 2} : Finset Nat) responseFrame).1 :=
  ⟨(pending_request_resolved_once {1, 2} 1 responseFrame rfl (by decide)).1,
   (pending_request_resolved_once {1, 2} 1 responseFrame rfl (by decide)).2.1⟩

/-- C8: calling `async_open_relay` while connected and authenticated sends
exactly one `relay.open` request, whose params carry `token` equal to the
current session token and the given relay index, with the `timeout` field
present exactly when a timeout was supplied — for every valid relay index and
timeout, and irrespective of the send outcome and reconnect oracle. -/
theorem open_relay_sends_single_request (st : CoordState) (relay : Nat)
    (timeout : Option Nat) (rr : Option CoordState) (sendOk : Bool)
    (tok : String) (hc : st.connected = true) (ht : st.token = some tok)
    (hrel : relay = 0 ∨ relay = 1)
    (hto : ∀ t, timeout = some t → 250 ≤ t ∧ t ≤ 30000) :
    sentRequests (async_open_relay st relay timeout rr sendOk).2.1 =
      [{ id := st.messageId + 1, method := METHOD_RELAY_OPEN,
         tokenParam := some tok, relayParam := relay,
         timeoutParam := timeout }] := by
  cases sendOk <;>
    simp [async_open_relay, sendRelay, sentRequests, hc, ht] <;>
    split_ifs <;>
    simp [sentRequests]

/-- C8 (witness): relay 0 with a 5000 ms timeout at a concrete connected state
sends the single expected request. -/
theorem open_relay_witness :
    sentRequests
      (async_open_relay sampleConnectedState 0 (some 5000) none true).2.1 =
      [{ id := 8, method := METHOD_RELAY_OPEN, tokenParam := some "abc123",
         relayParam := 0, timeoutParam := some 5000 }] :=
  open_relay_sends_single_request sampleConnectedState 0 (some 5000) none true
    "abc123" rfl rfl (Or.inl rfl)
    (by intro t h; injection h with h; subst h; omega)
